import Mathlib

/-!
Verification of the default-route bundle (`src/route.py`, class `IPRoute`)
against its specification.

The embedding models the mutable object state of `IPRoute` (its `model.db`
"default" key, the persisted copy of that key, `self.cellular`,
`self.interfaces`) together with the OS routing world, and threads it
explicitly through each method.  External network primitives (`ip.addr`,
`ip.route`, `netifaces`) are modelled by an environment `Env` that fixes the
outcome of each primitive: the list of link-up interfaces, whether
`ip.route.delete` succeeds, and whether `ip.route.add` succeeds for given
arguments.  Every primitive invocation is recorded in a call log so that
"no primitive call beyond X" claims are statable.

Python exceptions are modelled by `Except`: each method returns the state it
left behind (mutations made before a raise persist, as they do on a Python
object) together with `Except RErr α`.
-/

namespace IPRoute

/-- A routing entry: an interface name with an optional gateway address.
Used both for entries of the in-memory registry `self.interfaces` and for
the OS default route (`netifaces.gateways()` / `ip.route.add`). -/
structure RouteEntry where
  interface : String
  gateway : Option String
deriving Repr, DecidableEq

/-- One OS-level network-primitive invocation, for the call log. -/
inductive PrimCall where
  /-- `list_interfaces()` querying link-up interfaces via `ip.addr`. -/
  | listIfaces : PrimCall
  /-- `ip.route.delete("default")`. -/
  | routeDelete : PrimCall
  /-- `ip.route.add("default", interface[, gateway])`. -/
  | routeAdd (interface : String) (gateway : Option String) : PrimCall
deriving Repr, DecidableEq

/-- Errors raised by the modelled methods. -/
inductive RErr where
  /-- `ValueError("Interface should be UP.")` -/
  | interfaceDown : RErr
  /-- `ValueError("Cellular is connected, the default gateway cannot be changed.")` -/
  | cellularLocked : RErr
  /-- exception escaping `ip.route.delete("default")` -/
  | routeDeleteFailed : RErr
  /-- exception escaping `ip.route.add(...)` -/
  | routeAddFailed : RErr
  /-- `KeyError` from `self.model.db["default"]` when the key is absent -/
  | keyError : RErr
deriving Repr, DecidableEq

/-- The mutable state of an `IPRoute` object plus the world it acts on. -/
structure St where
  /-- `self.model.db["default"]` — `none` means the key is absent. -/
  db : Option String
  /-- the persisted (saved + backed-up) copy of the "default" key;
  `save()` copies `db` into it. -/
  pdb : Option String
  /-- `self.cellular`. -/
  cellular : Option String
  /-- `self.interfaces` — the in-memory interface gateway registry. -/
  interfaces : List RouteEntry
  /-- the OS default route (`none` = no default route installed). -/
  osRoute : Option RouteEntry
  /-- log of network-primitive invocations, oldest first. -/
  calls : List PrimCall
  /-- number of `save()` invocations (each is one write + one backup). -/
  saved : Nat
deriving Repr, DecidableEq

/-- Environment fixing the behaviour of the external network primitives. -/
structure Env where
  /-- result of `list_interfaces()`: names whose `ip.addr` link state is 1
  (exceptions inside `list_interfaces` are covered by the empty list). -/
  upIfaces : List String
  /-- whether `ip.route.delete("default")` succeeds. -/
  deleteOk : Bool
  /-- whether `ip.route.add("default", i, g?)` succeeds for arguments `i`, `g?`. -/
  addOk : String → Option String → Bool

/-- A request dict for `update_default` / `_put_default`:
`interface` is `none` when the key is absent, `gateway` likewise. -/
structure Req where
  interface : Option String
  gateway : Option String
deriving Repr, DecidableEq

/-- Python truthiness of `default["interface"]` guarded by key presence:
`"interface" in default and default["interface"]` — the key must be present
and its value a non-empty string. -/
def reqIface (d : Req) : Option String :=
  match d.interface with
  | some i => if i = "" then none else some i
  | none => none

/-- Python truthiness of `self.cellular` (`None` and `""` are falsy). -/
def isTruthy : Option String → Bool
  | some s => s ≠ ""
  | none => false

/-- Append one primitive invocation to the call log. -/
def logCall (s : St) (c : PrimCall) : St :=
  { s with calls := s.calls ++ [c] }

/-- `self.save()`: `self.model.save_db()` followed by `self.model.backup_db()`;
persists the current `db`. -/
def save (s : St) : St :=
  { s with pdb := s.db, saved := s.saved + 1 }

/-- The registry lookup loop of `update_default` (route.py lines 150-153):
`for iface in self.interfaces: if iface["interface"] == default["interface"]:
default = iface; break` — on a hit the whole request dict is replaced by the
registry entry; on a miss the request's own interface/gateway pair is kept. -/
def resolveRoute (reg : List RouteEntry) (name : String) (gw : Option String) : RouteEntry :=
  match reg.find? (fun e => e.interface = name) with
  | some e => e
  | none => ⟨name, gw⟩

/-- `IPRoute.update_default(default)` (route.py lines 129-175).

Non-empty request: check the interface is among the link-up interfaces
(`ValueError` otherwise), then refuse if `self.cellular` is truthy, then
replace the request by the registry entry if one matches, then
`ip.route.delete("default")` followed by `ip.route.add(...)`, then set
`self.model.db["default"]` and `save()`.

Empty request: `ip.route.delete("default")`, pop the `"default"` key, `save()`. -/
def update_default (env : Env) (s0 : St) (d : Req) : St × Except RErr Unit :=
  match reqIface d with
  | some name =>
    -- ifaces = self.list_interfaces()
    let s := logCall s0 .listIfaces
    let ifaces := env.upIfaces
    if ifaces = [] ∨ name ∉ ifaces then
      (s, .error .interfaceDown)
    else if isTruthy s.cellular then
      (s, .error .cellularLocked)
    else
      let route := resolveRoute s.interfaces name d.gateway
      -- ip.route.delete("default")
      let s := logCall s .routeDelete
      if env.deleteOk then
        let s := { s with osRoute := none }
        -- ip.route.add("default", interface[, gateway])
        let s := logCall s (.routeAdd route.interface route.gateway)
        if env.addOk route.interface route.gateway then
          let s := { s with osRoute := some route, db := some route.interface }
          (save s, .ok ())
        else
          (s, .error .routeAddFailed)
      else
        (s, .error .routeDeleteFailed)
  | none =>
    -- delete branch: ip.route.delete("default"); db.pop("default"); save
    let s := logCall s0 .routeDelete
    if env.deleteOk then
      let s := { s with osRoute := none, db := none }
      (save s, .ok ())
    else
      (s, .error .routeDeleteFailed)

/-- `IPRoute.cellular_connected(name, up)` (route.py lines 72-88).
`up=True`: set `self.cellular = name` and force the default to `name`
(no gateway key).  `up=False`: set `self.cellular = None`; if
`name == self.model.db["default"]` (KeyError when the key is absent),
clear the default. -/
def cellular_connected (env : Env) (s : St) (name : String) (up : Bool) :
    St × Except RErr Unit :=
  if up then
    let s := { s with cellular := some name }
    update_default env s ⟨some name, none⟩
  else
    let s := { s with cellular := none }
    match s.db with
    | none => (s, .error .keyError)
    | some d =>
      if name = d then
        update_default env s ⟨none, none⟩
      else
        (s, .ok ())

/-- The registry upsert loop of `update_interface_router` (route.py lines
188-199): scan `self.interfaces` for the first entry whose `interface` equals
`interface["name"]`; on a hit overwrite its gateway only when the request
carries a `"gateway"` key, and `break`; on loop fall-through (`for`/`else`)
append a fresh entry carrying the gateway only when supplied.  Returns the
updated registry together with the entry the loop variable `iface` refers to
afterwards. -/
def upsertRegistry : List RouteEntry → String → Option String → List RouteEntry × RouteEntry
  | [], name, gw =>
    let e : RouteEntry := ⟨name, gw⟩
    ([e], e)
  | e :: rest, name, gw =>
    if e.interface = name then
      match gw with
      | some g =>
        let e2 : RouteEntry := { e with gateway := some g }
        (e2 :: rest, e2)
      | none => (e :: rest, e)
    else
      let r := upsertRegistry rest name gw
      (e :: r.1, r.2)

/-- `IPRoute.update_interface_router(interface)` (route.py lines 177-206):
upsert the registry, then compare the touched entry's name against
`self.model.db["default"]` (a `KeyError` when that key is absent); on
equality re-apply the default via `update_default(iface)` with every
exception swallowed (`try: ... except: pass`). -/
def update_interface_router (env : Env) (s0 : St) (name : String) (gw : Option String) :
    St × Except RErr Unit :=
  let r := upsertRegistry s0.interfaces name gw
  let s := { s0 with interfaces := r.1 }
  match s.db with
  | none => (s, .error .keyError)
  | some d =>
    if r.2.interface = d then
      ((update_default env s ⟨some r.2.interface, r.2.gateway⟩).1, .ok ())
    else
      (s, .ok ())

/-- Responses of the PUT /network/routes/default handler. -/
inductive Resp where
  /-- `response(data=self.model.db)` — success, carrying the db's
  "default" key. -/
  | ok (db : Option String) : Resp
  /-- `response(code=404, ...)` — "Update default gateway failed", carrying
  the original exception. -/
  | applyFailed (e : RErr) : Resp
deriving Repr, DecidableEq

/-- `IPRoute._put_default(message, response)` (route.py lines 231-260) for a
schema-valid request (the schema only constrains `interface` to be a string
when present, which the `Req` type guarantees, so the 400 branch is
unreachable here).  Reads the OS-observed default (`list_default()`), runs
`update_default(message.data)`; on any exception, attempts
`update_default(default)` with the observed route (itself guarded by a bare
`except` that only logs), then returns the 404 carrying the original error. -/
def put_default (env : Env) (s : St) (d : Req) : St × Resp :=
  -- default = self.list_default()
  let observed := s.osRoute
  match update_default env s d with
  | (s1, .ok _) => (s1, .ok s1.db)
  | (s1, .error e) =>
    let s2 :=
      match observed with
      | some r => (update_default env s1 ⟨some r.interface, r.gateway⟩).1
      | none => s1
    (s2, .applyFailed e)

/-- Modelled from the spec (§4.1 Interface Gateway Registry, claim C9's
wording), first half: replace the first entry named `name` by `e`, keeping
the rest untouched. -/
def replaceFirstMatching : List RouteEntry → String → RouteEntry → List RouteEntry
  | [], _, _ => []
  | x :: rest, name, e =>
    if x.interface = name then e :: rest
    else x :: replaceFirstMatching rest name e

/-- Modelled from the spec (§4.1 Interface Gateway Registry, claim C9's
wording), second half: the upsert itself, stated with an explicit first-match
replacement to be compared against `upsertRegistry`, the loop transcribed
from the source. -/
def registryUpsertSpec (reg : List RouteEntry) (name : String) (gw : Option String) :
    List RouteEntry × RouteEntry :=
  match reg.find? (fun e => e.interface = name) with
  | some old =>
    match gw with
    | none => (reg, old)
    | some g =>
      let e : RouteEntry := { old with gateway := some g }
      (replaceFirstMatching reg name e, e)
  | none =>
    let e : RouteEntry := ⟨name, gw⟩
    (reg ++ [e], e)

/-! ## Helper lemmas -/

theorem resolveRoute_interface (reg : List RouteEntry) (name : String) (gw : Option String) :
    (resolveRoute reg name gw).interface = name := by
  unfold resolveRoute
  cases h : reg.find? (fun e => e.interface = name) with
  | none => rfl
  | some e => simpa using List.find?_some h

/-- `update_default` never touches the cellular marker or the registry, and
when it raises it leaves the db, the persisted db and the save counter
untouched: the db mutation and `save()` sit after the last point that can
raise. -/
theorem update_default_frame (env : Env) (s : St) (d : Req) :
    (update_default env s d).1.cellular = s.cellular ∧
    (update_default env s d).1.interfaces = s.interfaces ∧
    (∀ e, (update_default env s d).2 = .error e →
      (update_default env s d).1.db = s.db ∧
      (update_default env s d).1.pdb = s.pdb ∧
      (update_default env s d).1.saved = s.saved) := by
  unfold update_default
  cases hd : reqIface d <;> dsimp only <;> repeat' split
  all_goals simp [logCall, save]

/-- A successful `update_default` persists the in-memory db (one `save()`),
which then holds the resolved interface (non-empty request) or is cleared
(empty request); the OS route ends at the resolved registry route. -/
theorem update_default_ok_state (env : Env) (s : St) (d : Req) :
    (update_default env s d).2 = .ok () →
    (update_default env s d).1.pdb = (update_default env s d).1.db ∧
    (update_default env s d).1.saved = s.saved + 1 ∧
    ((∃ n, reqIface d = some n ∧ (update_default env s d).1.db = some n ∧
        (update_default env s d).1.osRoute = some (resolveRoute s.interfaces n d.gateway)) ∨
     (reqIface d = none ∧ (update_default env s d).1.db = none ∧
        (update_default env s d).1.osRoute = none)) := by
  unfold update_default
  cases hd : reqIface d <;> dsimp only <;> repeat' split
  all_goals intro h
  all_goals simp_all [logCall, save, resolveRoute_interface]

/-- When `ip.route.delete` fails, `update_default` cannot mutate anything but
the call log: every path raises at or before the delete. -/
theorem update_default_deleteFalse (env : Env) (s : St) (d : Req)
    (h : env.deleteOk = false) :
    (update_default env s d).1.osRoute = s.osRoute ∧
    (update_default env s d).1.db = s.db ∧
    (update_default env s d).1.pdb = s.pdb ∧
    (update_default env s d).1.saved = s.saved ∧
    ∃ e, (update_default env s d).2 = .error e := by
  unfold update_default
  cases hd : reqIface d <;> dsimp only <;> repeat' split
  all_goals simp_all [logCall, save]

/-- The down-interface guard: a non-empty request whose interface is not
among the link-up interfaces raises `ValueError("Interface should be UP.")`
right after the interface query, with no other state change. -/
theorem update_default_down_guard (env : Env) (s : St) (d : Req) (n : String)
    (hn : reqIface d = some n) (hdown : n ∉ env.upIfaces) :
    update_default env s d =
      ({ s with calls := s.calls ++ [.listIfaces] }, .error .interfaceDown) := by
  unfold update_default
  rw [hn]
  dsimp only
  rw [if_pos (Or.inr hdown)]
  rfl

/-- The cellular guard: with `self.cellular` truthy, any non-empty request
for a link-up interface raises the cellular `ValueError` right after the
interface query (the guard does not exempt the cellular interface itself). -/
theorem update_default_cellular_guard (env : Env) (s : St) (d : Req) (n : String)
    (hn : reqIface d = some n) (hup : n ∈ env.upIfaces)
    (hcell : isTruthy s.cellular = true) :
    update_default env s d =
      ({ s with calls := s.calls ++ [.listIfaces] }, .error .cellularLocked) := by
  unfold update_default
  rw [hn]
  dsimp only
  rw [if_neg (not_or.mpr ⟨List.ne_nil_of_mem hup, not_not_intro hup⟩)]
  rw [if_pos (by simpa [logCall] using hcell)]
  rfl

/-- The success path of a non-empty request: both primitives succeed, the OS
route becomes the registry-resolved route, and the resolved interface is
written to the db and persisted. -/
theorem update_default_success (env : Env) (s : St) (d : Req) (n : String)
    (hn : reqIface d = some n) (hup : n ∈ env.upIfaces)
    (hcell : isTruthy s.cellular = false) (hdel : env.deleteOk = true)
    (hadd : env.addOk (resolveRoute s.interfaces n d.gateway).interface
              (resolveRoute s.interfaces n d.gateway).gateway = true) :
    update_default env s d =
      ({ s with osRoute := some (resolveRoute s.interfaces n d.gateway),
                db := some (resolveRoute s.interfaces n d.gateway).interface,
                pdb := some (resolveRoute s.interfaces n d.gateway).interface,
                calls := s.calls ++ [.listIfaces, .routeDelete,
                  .routeAdd (resolveRoute s.interfaces n d.gateway).interface
                            (resolveRoute s.interfaces n d.gateway).gateway],
                saved := s.saved + 1 }, .ok ()) := by
  unfold update_default
  rw [hn]
  dsimp only
  rw [if_neg (not_or.mpr ⟨List.ne_nil_of_mem hup, not_not_intro hup⟩)]
  rw [if_neg (by simp [logCall, hcell])]
  simp only [logCall]
  rw [if_pos hdel]
  rw [if_pos (by simpa [logCall] using hadd)]
  simp [logCall, save]

/-- The empty-request (clear-default) path as a single equation, on both
outcomes of `ip.route.delete`. -/
theorem update_default_clear_eq (env : Env) (s : St) (d : Req)
    (hd : reqIface d = none) :
    update_default env s d =
      (if env.deleteOk then
         { s with osRoute := none, db := none, pdb := none,
                  calls := s.calls ++ [.routeDelete], saved := s.saved + 1 }
       else { s with calls := s.calls ++ [.routeDelete] },
       if env.deleteOk then .ok () else .error .routeDeleteFailed) := by
  unfold update_default
  rw [hd]
  dsimp only
  by_cases hdel : env.deleteOk <;> simp [hdel, logCall, save]

/-- The entry returned by the upsert loop carries the looked-up name. -/
theorem upsertRegistry_interface (reg : List RouteEntry) (name : String)
    (gw : Option String) : (upsertRegistry reg name gw).2.interface = name := by
  induction reg with
  | nil => rfl
  | cons x rest ih =>
    by_cases hx : x.interface = name <;> cases gw <;>
      simp [upsertRegistry, hx, ih]

/-- After the upsert loop, the first registry entry for `name` is exactly the
entry the loop returned. -/
theorem upsertRegistry_find (reg : List RouteEntry) (name : String)
    (gw : Option String) :
    (upsertRegistry reg name gw).1.find? (fun e => e.interface = name) =
      some (upsertRegistry reg name gw).2 := by
  induction reg with
  | nil => cases gw <;> simp [upsertRegistry, List.find?]
  | cons x rest ih =>
    by_cases hx : x.interface = name
    · cases gw <;> simp [upsertRegistry, hx, List.find?]
    · cases gw <;> simp [upsertRegistry, hx, List.find?, ih]

/-! ## Claim theorems -/

/-- C5: while the cellular state is `Active(x)`, every `setDefault` attempt
(`update_default`) for a link-up interface `y ≠ x` fails with the cellular
`ValueError`, the only network-primitive call made is the up-interface
query (no route delete or add), and the OS route, the db and the persisted
config are all unchanged. -/
theorem cellular_lock_blocks_other_interfaces (env : Env) (s : St) (d : Req)
    (x y : String) (hcell : s.cellular = some x) (hx : x ≠ "")
    (hy : reqIface d = some y) (hup : y ∈ env.upIfaces) (hne : y ≠ x) :
    update_default env s d =
      ({ s with calls := s.calls ++ [.listIfaces] }, .error .cellularLocked) :=
  update_default_cellular_guard env s d y hy hup (by simp [isTruthy, hcell, hx])

/-- Witness for C5 at a concrete input: cellular `Active("ppp0")`, request
for the up interface `"eth0"`. -/
theorem cellular_lock_blocks_other_interfaces_witness :
    update_default ⟨["eth0"], true, fun _ _ => true⟩
        ⟨some "eth0", some "eth0", some "ppp0", [], none, [], 0⟩
        ⟨some "eth0", none⟩ =
      (⟨some "eth0", some "eth0", some "ppp0", [], none, [PrimCall.listIfaces], 0⟩,
       .error .cellularLocked) := by
  have h := cellular_lock_blocks_other_interfaces ⟨["eth0"], true, fun _ _ => true⟩
    ⟨some "eth0", some "eth0", some "ppp0", [], none, [], 0⟩ ⟨some "eth0", none⟩
    "ppp0" "eth0" rfl (by decide) (by decide) (by decide) (by decide)
  simpa using h

/-- C4 (amended): a `setDefault` request naming an interface that is not
link-up makes `update_default` fail with `ValueError("Interface should be
UP.")` after only the up-interface query, leaving the OS route, the db and
the persisted config unchanged; the claim's further assertion that the whole
PUT call leaves them unchanged is refuted by
`put_default_restore_rewrites_config`. -/
theorem interface_down_rejected (env : Env) (s : St) (d : Req) (n : String)
    (hn : reqIface d = some n) (hdown : n ∉ env.upIfaces) :
    update_default env s d =
      ({ s with calls := s.calls ++ [.listIfaces] }, .error .interfaceDown) :=
  update_default_down_guard env s d n hn hdown

/-- Witness for C4's amended theorem at a concrete input: request for
`"wlan0"` while only `"eth0"` is up. -/
theorem interface_down_rejected_witness :
    update_default ⟨["eth0"], true, fun _ _ => true⟩
        ⟨some "eth1", some "eth1", none, [], none, [], 0⟩ ⟨some "wlan0", none⟩ =
      (⟨some "eth1", some "eth1", none, [], none, [PrimCall.listIfaces], 0⟩,
       .error .interfaceDown) := by
  have h := interface_down_rejected ⟨["eth0"], true, fun _ _ => true⟩
    ⟨some "eth1", some "eth1", none, [], none, [], 0⟩ ⟨some "wlan0", none⟩
    "wlan0" (by decide) (by decide)
  simpa using h

/-- C4 counterexample: through the PUT handler the persisted config is NOT
left unchanged by an `InterfaceDown` failure.  Persisted default starts as
`"eth1"`, the OS-observed default is `eth0`; the request for the down
interface `"wlan0"` fails, but the handler's restoration then re-applies the
observed `eth0` route and persists `"eth0"`. -/
theorem put_default_restore_rewrites_config :
    (put_default ⟨["eth0"], true, fun _ _ => true⟩
        ⟨some "eth1", some "eth1", none, [],
         some ⟨"eth0", some "10.0.0.9"⟩, [], 0⟩
        ⟨some "wlan0", none⟩).2 = .applyFailed .interfaceDown ∧
    (put_default ⟨["eth0"], true, fun _ _ => true⟩
        ⟨some "eth1", some "eth1", none, [],
         some ⟨"eth0", some "10.0.0.9"⟩, [], 0⟩
        ⟨some "wlan0", none⟩).1.pdb = some "eth0" := by
  decide

/-- C2 (code bug): `cellular_connected(name, up=True)` sets
`self.cellular = name` and then calls `update_default`, but the cellular
guard in `update_default` (`elif self.cellular:`) does not exempt the
cellular interface itself, so the call always raises the cellular
`ValueError` for a link-up `name` and never installs the route or persists
anything — contradicting the method's own docstring ("the default gateway
should be set to cellular interface") and the spec's `signalUp`. -/
theorem cellular_up_never_applies_route (env : Env) (s : St) (name : String)
    (hn : name ≠ "") (hup : name ∈ env.upIfaces) :
    cellular_connected env s name true =
      ({ s with cellular := some name, calls := s.calls ++ [.listIfaces] },
       .error .cellularLocked) := by
  unfold cellular_connected
  rw [if_pos rfl]
  exact update_default_cellular_guard env { s with cellular := some name }
    ⟨some name, none⟩ name (by simp [reqIface, hn]) hup (by simp [isTruthy, hn])

/-- Witness for C2's theorem at the spec's own scenario: cellular signals up
for `"ppp0"` while `"ppp0"` is link-up; the state keeps its old route and
persisted default, and the call raises instead of applying the route. -/
theorem cellular_up_never_applies_route_witness :
    cellular_connected ⟨["ppp0", "eth0"], true, fun _ _ => true⟩
        ⟨some "eth0", some "eth0", none, [],
         some ⟨"eth0", some "10.0.0.1"⟩, [], 0⟩ "ppp0" true =
      (⟨some "eth0", some "eth0", some "ppp0", [],
        some ⟨"eth0", some "10.0.0.1"⟩, [PrimCall.listIfaces], 0⟩,
       .error .cellularLocked) := by
  have h := cellular_up_never_applies_route ⟨["ppp0", "eth0"], true, fun _ _ => true⟩
    ⟨some "eth0", some "eth0", none, [], some ⟨"eth0", some "10.0.0.1"⟩, [], 0⟩
    "ppp0" (by decide) (by decide)
  simpa using h

/-- C10: when the persisted config has no `"default"` key,
`update_interface_router` raises an uncaught `KeyError` at the comparison
`iface["interface"] == self.model.db["default"]` — after the registry has
already been mutated — and `cellular_connected(name, up=False)` raises the
same uncaught `KeyError` after `self.cellular` has already been cleared. -/
theorem missing_default_key_raises (env : Env) (s : St) (name : String)
    (gw : Option String) (h : s.db = none) :
    update_interface_router env s name gw =
      ({ s with interfaces := (upsertRegistry s.interfaces name gw).1 },
       .error .keyError) ∧
    cellular_connected env s name false =
      ({ s with cellular := none }, .error .keyError) := by
  constructor
  · unfold update_interface_router
    dsimp only
    rw [h]
  · unfold cellular_connected
    rw [if_neg (by simp)]
    dsimp only
    rw [h]

/-- Witness for C10 at a concrete input: empty db, upserting `"eth0"` and
signalling cellular down for `"ppp0"`. -/
theorem missing_default_key_raises_witness :
    update_interface_router ⟨["eth0"], true, fun _ _ => true⟩
        ⟨none, none, some "ppp0", [], none, [], 0⟩ "eth0" (some "10.0.0.1") =
      (⟨none, none, some "ppp0",
        [⟨"eth0", some "10.0.0.1"⟩], none, [], 0⟩, .error .keyError) ∧
    cellular_connected ⟨["eth0"], true, fun _ _ => true⟩
        ⟨none, none, some "ppp0", [], none, [], 0⟩ "ppp0" false =
      (⟨none, none, none, [], none, [], 0⟩, .error .keyError) := by
  have h := missing_default_key_raises ⟨["eth0"], true, fun _ _ => true⟩
    ⟨none, none, some "ppp0", [], none, [], 0⟩ "eth0" (some "10.0.0.1") rfl
  have h2 := missing_default_key_raises ⟨["eth0"], true, fun _ _ => true⟩
    ⟨none, none, some "ppp0", [], none, [], 0⟩ "ppp0" none rfl
  exact ⟨by simpa [upsertRegistry] using h.1, by simpa using h2.2⟩

/-- C9: the registry upsert loop of `update_interface_router` implements
exactly the partial-update semantics: an existing entry keeps its stored
gateway when the call supplies none and has it replaced when one is
supplied, a missing entry is appended (with the gateway only when supplied),
and the operation is a pure function of the registry alone — `upsertRegistry`
coincides with `registryUpsertSpec`, the first-match replace/append map
written from the spec's words. -/
theorem upsertRegistry_eq_spec (reg : List RouteEntry) (name : String)
    (gw : Option String) :
    upsertRegistry reg name gw = registryUpsertSpec reg name gw := by
  induction reg with
  | nil => cases gw <;> rfl
  | cons x rest ih =>
    by_cases hx : x.interface = name
    · cases gw <;>
        simp [upsertRegistry, registryUpsertSpec, replaceFirstMatching,
          List.find?, hx]
    · cases hf : rest.find? (fun e => e.interface = name) with
      | none =>
        cases gw <;>
          simp [upsertRegistry, registryUpsertSpec, replaceFirstMatching,
            List.find?, hx, hf, ih]
      | some old =>
        cases gw <;>
          simp [upsertRegistry, registryUpsertSpec, replaceFirstMatching,
            List.find?, hx, hf, ih]

theorem RouteEntry.eq_mk (e : RouteEntry) : e = ⟨e.interface, e.gateway⟩ := rfl

/-- C3: when the registry holds `{interface: name, gateway: g}`, a
`setDefault` request for `name` with any caller-supplied gateway `gp` applies
the registry's route — the route added is `(name, g)`, the caller's `gp` is
ignored — and on success the persisted config stores just the interface name
(the db's `"default"` key is a bare string, no gateway field). -/
theorem registry_overrides_request_gateway (env : Env) (s : St)
    (name g gp : String) (hn : name ≠ "")
    (hreg : s.interfaces.find? (fun e => e.interface = name) = some ⟨name, some g⟩)
    (hup : name ∈ env.upIfaces) (hcell : s.cellular = none)
    (hdel : env.deleteOk = true) (hadd : env.addOk name (some g) = true) :
    update_default env s ⟨some name, some gp⟩ =
      ({ s with osRoute := some ⟨name, some g⟩, db := some name, pdb := some name,
                calls := s.calls ++
                  [.listIfaces, .routeDelete, .routeAdd name (some g)],
                saved := s.saved + 1 }, .ok ()) := by
  have hres : resolveRoute s.interfaces name (some gp) = ⟨name, some g⟩ := by
    simp [resolveRoute, hreg]
  have h := update_default_success env s ⟨some name, some gp⟩ name
    (by simp [reqIface, hn]) hup (by simp [isTruthy, hcell]) hdel
    (by simp [hres, hadd])
  simpa [hres] using h

/-- Witness for C3 at the spec's own scenario: registry
`{eth0 ↦ 10.0.0.1}`, request `setDefault(eth0, 192.168.1.1)` — the applied
route carries `10.0.0.1` and the persisted config is just `"eth0"`. -/
theorem registry_overrides_request_gateway_witness :
    update_default ⟨["eth0"], true, fun _ _ => true⟩
        ⟨some "eth1", some "eth1", none, [⟨"eth0", some "10.0.0.1"⟩],
         none, [], 0⟩ ⟨some "eth0", some "192.168.1.1"⟩ =
      (⟨some "eth0", some "eth0", none, [⟨"eth0", some "10.0.0.1"⟩],
        some ⟨"eth0", some "10.0.0.1"⟩,
        [PrimCall.listIfaces, PrimCall.routeDelete,
         PrimCall.routeAdd "eth0" (some "10.0.0.1")], 1⟩, .ok ()) := by
  have h := registry_overrides_request_gateway ⟨["eth0"], true, fun _ _ => true⟩
    ⟨some "eth1", some "eth1", none, [⟨"eth0", some "10.0.0.1"⟩], none, [], 0⟩
    "eth0" "10.0.0.1" "192.168.1.1" (by decide) (by simp [List.find?])
    (by decide) rfl rfl rfl
  simpa using h

/-- C7 counterexample: while the cellular state is `Active("ppp1")`,
`signalDown("ppp0")` is NOT a no-op — `cellular_connected` unconditionally
clears `self.cellular`, so the state moves from `Active("ppp1")` to
`Inactive` even though the down signal named a different interface. -/
theorem cellular_down_clears_other_active :
    cellular_connected ⟨["eth0"], true, fun _ _ => true⟩
        ⟨some "eth0", some "eth0", some "ppp1", [],
         some ⟨"eth0", some "10.0.0.1"⟩, [], 0⟩ "ppp0" false =
      (⟨some "eth0", some "eth0", none, [],
        some ⟨"eth0", some "10.0.0.1"⟩, [], 0⟩, .ok ()) := rfl

/-- C7 (amended): `signalDown(name)` unconditionally moves the cellular
state to `Inactive` (even from `Active(other)`); then — provided the
persisted config has a `"default"` key `d` — if `name ≠ d` nothing else
changes, while if `name = d` the default route is cleared through the
empty-request path (OS route removed, `"default"` key dropped and
persisted; a failing delete raises out of the call with the rest of the
state unchanged). -/
theorem cellular_down_spec (env : Env) (s : St) (name d : String)
    (h : s.db = some d) :
    (cellular_connected env s name false).1.cellular = none ∧
    (name ≠ d →
      cellular_connected env s name false =
        ({ s with cellular := none }, .ok ())) ∧
    (name = d → env.deleteOk = true →
      cellular_connected env s name false =
        ({ s with cellular := none, osRoute := none, db := none, pdb := none,
                  calls := s.calls ++ [.routeDelete], saved := s.saved + 1 },
         .ok ())) ∧
    (name = d → env.deleteOk = false →
      cellular_connected env s name false =
        ({ s with cellular := none, calls := s.calls ++ [.routeDelete] },
         .error .routeDeleteFailed)) := by
  have hc : cellular_connected env s name false =
      (if name = d then
         update_default env { s with cellular := none } ⟨none, none⟩
       else ({ s with cellular := none }, .ok ())) := by
    unfold cellular_connected
    rw [if_neg (by simp)]
    dsimp only
    rw [h]
  have hclear := update_default_clear_eq env { s with cellular := none }
    ⟨none, none⟩ rfl
  refine ⟨?_, ?_, ?_, ?_⟩
  · rw [hc]
    by_cases hnd : name = d
    · rw [if_pos hnd]
      have hf := (update_default_frame env { s with cellular := none } ⟨none, none⟩).1
      simpa using hf
    · rw [if_neg hnd]
  · intro hne
    rw [hc, if_neg hne]
  · intro hnd hdel
    rw [hc, if_pos hnd, hclear]
    simp [hdel]
  · intro hnd hdel
    rw [hc, if_pos hnd, hclear]
    simp [hdel]

/-- Witness for C7's amended theorem: db default `"ppp0"`, cellular
`Active("ppp0")`, down signal for `"ppp0"` with a working delete — the
default is cleared and persisted. -/
theorem cellular_down_spec_witness :
    cellular_connected ⟨["eth0"], true, fun _ _ => true⟩
        ⟨some "ppp0", some "ppp0", some "ppp0", [],
         some ⟨"ppp0", none⟩, [], 0⟩ "ppp0" false =
      (⟨none, none, none, [], none, [PrimCall.routeDelete], 1⟩, .ok ()) := by
  have h := cellular_down_spec ⟨["eth0"], true, fun _ _ => true⟩
    ⟨some "ppp0", some "ppp0", some "ppp0", [], some ⟨"ppp0", none⟩, [], 0⟩
    "ppp0" "ppp0" rfl
  simpa using h.2.2.1 rfl rfl

/-- C8: `update_interface_router({name, gateway?})` first upserts the
registry; the call always returns successfully (a failing re-apply is
swallowed by the bare `except: pass`), provided the db has a `"default"`
key `d`.  When `name ≠ d` nothing beyond the registry changes; when
`name = d` and the primitives cooperate, the default route is re-applied
with the freshly registered gateway and `name` is persisted as the default. -/
theorem update_interface_router_spec (env : Env) (s : St) (name d : String)
    (gw : Option String) (hdb : s.db = some d) (hn : name ≠ "") :
    (update_interface_router env s name gw).2 = .ok () ∧
    (update_interface_router env s name gw).1.interfaces =
      (upsertRegistry s.interfaces name gw).1 ∧
    (name ≠ d →
      update_interface_router env s name gw =
        ({ s with interfaces := (upsertRegistry s.interfaces name gw).1 },
         .ok ())) ∧
    (name = d → name ∈ env.upIfaces → s.cellular = none →
      env.deleteOk = true →
      env.addOk name (upsertRegistry s.interfaces name gw).2.gateway = true →
      (update_interface_router env s name gw).1.osRoute =
        some ⟨name, (upsertRegistry s.interfaces name gw).2.gateway⟩ ∧
      (update_interface_router env s name gw).1.db = some name ∧
      (update_interface_router env s name gw).1.pdb = some name) := by
  have he := upsertRegistry_interface s.interfaces name gw
  unfold update_interface_router
  dsimp only
  rw [hdb, he]
  dsimp only
  by_cases hnd : name = d
  · rw [if_pos hnd]
    have hfr := update_default_frame env
      { s with db := some d, interfaces := (upsertRegistry s.interfaces name gw).1 }
      ⟨some name, (upsertRegistry s.interfaces name gw).2.gateway⟩
    refine ⟨rfl, by simpa using hfr.2.1, fun hne => absurd hnd hne, ?_⟩
    intro _ hup hcell hdel hadd
    have hres : resolveRoute (upsertRegistry s.interfaces name gw).1 name
        (upsertRegistry s.interfaces name gw).2.gateway =
        (upsertRegistry s.interfaces name gw).2 := by
      simp [resolveRoute, upsertRegistry_find]
    have hsucc := update_default_success env
      { s with db := some d, interfaces := (upsertRegistry s.interfaces name gw).1 }
      ⟨some name, (upsertRegistry s.interfaces name gw).2.gateway⟩ name
      (by simp [reqIface, hn]) hup (by simp [isTruthy, hcell]) hdel
      (by simpa [hres, he] using hadd)
    have hmk : (upsertRegistry s.interfaces name gw).2 =
        ⟨name, (upsertRegistry s.interfaces name gw).2.gateway⟩ := by
      have h2 := RouteEntry.eq_mk (upsertRegistry s.interfaces name gw).2
      rw [he] at h2
      exact h2
    rw [hsucc]
    dsimp only
    rw [hres]
    exact ⟨congrArg some hmk, by rw [he], by rw [he]⟩
  · rw [if_neg hnd]
    exact ⟨rfl, rfl, fun _ => rfl, fun hd => absurd hd hnd⟩

/-- Witness for C8 at the spec's own scenario:
`updateInterface(eth0, 10.0.0.2)` while `"eth0"` is the persisted default —
the OS route is re-applied with `10.0.0.2` and `"eth0"` persisted. -/
theorem update_interface_router_spec_witness :
    (update_interface_router ⟨["eth0"], true, fun _ _ => true⟩
        ⟨some "eth0", some "eth0", none, [⟨"eth0", some "10.0.0.1"⟩],
         some ⟨"eth0", some "10.0.0.1"⟩, [], 0⟩ "eth0" (some "10.0.0.2")).2 =
      .ok () ∧
    (update_interface_router ⟨["eth0"], true, fun _ _ => true⟩
        ⟨some "eth0", some "eth0", none, [⟨"eth0", some "10.0.0.1"⟩],
         some ⟨"eth0", some "10.0.0.1"⟩, [], 0⟩ "eth0"
        (some "10.0.0.2")).1.osRoute = some ⟨"eth0", some "10.0.0.2"⟩ := by
  have h := update_interface_router_spec ⟨["eth0"], true, fun _ _ => true⟩
    ⟨some "eth0", some "eth0", none, [⟨"eth0", some "10.0.0.1"⟩],
     some ⟨"eth0", some "10.0.0.1"⟩, [], 0⟩ "eth0" "eth0" (some "10.0.0.2")
    rfl (by decide)
  have h4 := h.2.2.2 rfl (by decide) rfl rfl (by simp [upsertRegistry])
  exact ⟨h.1, by simpa [upsertRegistry] using h4.1⟩

/-- C1 (amended): when `update_default` fails inside the PUT handler, the
caller receives the original error as the 404 response; if no default route
was observed before the apply nothing further happens, and if one was
observed the handler runs `update_default` on the observed
`{interface, gateway?}` dict with any restoration error swallowed.  The
persisted config afterwards is either unchanged from before the call or —
when the restoration succeeds — equal to the interface of the previously
observed OS route (which need not match the previously persisted value; see
the counterexample for the claim's stronger "unchanged" assertion). -/
theorem put_default_rollback_spec (env : Env) (s s1 : St) (d : Req) (e : RErr)
    (hfail : update_default env s d = (s1, .error e))
    (hos : ∀ r, s.osRoute = some r → r.interface ≠ "") :
    (put_default env s d).2 = .applyFailed e ∧
    (s.osRoute = none → (put_default env s d).1 = s1) ∧
    (∀ r, s.osRoute = some r →
      (put_default env s d).1 =
        (update_default env s1 ⟨some r.interface, r.gateway⟩).1) ∧
    ((put_default env s d).1.pdb = s.pdb ∨
     ∃ r, s.osRoute = some r ∧ (put_default env s d).1.pdb = some r.interface) := by
  have hframe := update_default_frame env s d
  rw [hfail] at hframe
  have hpdb1 : s1.pdb = s.pdb := (hframe.2.2 e rfl).2.1
  unfold put_default
  rw [hfail]
  cases hosr : s.osRoute with
  | none =>
    dsimp only
    exact ⟨rfl, fun _ => rfl, fun r hr => absurd hr (by simp), Or.inl hpdb1⟩
  | some r =>
    dsimp only
    have hrne : r.interface ≠ "" := hos r (by rw [hosr])
    have hreq : reqIface ⟨some r.interface, r.gateway⟩ = some r.interface := by
      simp [reqIface, hrne]
    refine ⟨rfl, fun hn => Option.noConfusion hn, fun r2 hr2 => by cases hr2; rfl, ?_⟩
    cases hres2 : (update_default env s1 ⟨some r.interface, r.gateway⟩).2 with
    | error e2 =>
      have hf2 := update_default_frame env s1 ⟨some r.interface, r.gateway⟩
      exact Or.inl (((hf2.2.2 e2 hres2).2.1).trans hpdb1)
    | ok u =>
      cases u
      have hok := update_default_ok_state env s1 ⟨some r.interface, r.gateway⟩ hres2
      rcases hok.2.2 with ⟨n, hn, hdb, -⟩ | ⟨hnone, -, -⟩
      · rw [hreq] at hn
        cases hn
        exact Or.inr ⟨r, rfl, hok.1.trans hdb⟩
      · rw [hreq] at hnone
        exact Option.noConfusion hnone

/-- Witness for C1's amended theorem: request `"eth2"` whose add fails;
the observed default `eth0` is not up, so the restoration also fails
(swallowed) and the caller still gets the 404 with the original error. -/
theorem put_default_rollback_spec_witness :
    (put_default ⟨["eth2"], true, fun _ _ => false⟩
        ⟨some "eth1", some "eth1", none, [],
         some ⟨"eth0", some "10.0.0.1"⟩, [], 0⟩ ⟨some "eth2", none⟩).2 =
      .applyFailed .routeAddFailed := by
  have h := put_default_rollback_spec ⟨["eth2"], true, fun _ _ => false⟩
    ⟨some "eth1", some "eth1", none, [],
     some ⟨"eth0", some "10.0.0.1"⟩, [], 0⟩
    ⟨some "eth1", some "eth1", none, [], none,
     [PrimCall.listIfaces, PrimCall.routeDelete, PrimCall.routeAdd "eth2" none],
     0⟩
    ⟨some "eth2", none⟩ .routeAddFailed rfl
    (fun r hr => by cases hr; decide)
  exact h.1

/-- C1 counterexample: the persisted config after a failed PUT is NOT always
unchanged.  Persisted default starts as `"eth1"` while the OS-observed
default is `eth0`; the request for `"eth2"` fails at `ip.route.add`, the
restoration of the observed `eth0` route succeeds — and persists `"eth0"`,
changing the persisted config from `"eth1"`. -/
theorem put_default_failed_call_changes_config :
    (put_default ⟨["eth0", "eth2"], true, fun i _ => ¬ i = "eth2"⟩
        ⟨some "eth1", some "eth1", none, [],
         some ⟨"eth0", some "10.0.0.1"⟩, [], 0⟩ ⟨some "eth2", none⟩).2 =
      .applyFailed .routeAddFailed ∧
    (put_default ⟨["eth0", "eth2"], true, fun i _ => ¬ i = "eth2"⟩
        ⟨some "eth1", some "eth1", none, [],
         some ⟨"eth0", some "10.0.0.1"⟩, [], 0⟩ ⟨some "eth2", none⟩).1.pdb =
      some "eth0" := by
  decide

/-- C6 (amended): for an empty (clear-default) request, on a working delete
the OS default route is removed, the `"default"` key is dropped and the
config persisted (one write+backup); on a failing delete the PUT handler
returns the 404 wrapping the delete error and the db, persisted config, OS
route and save counter are unchanged — but, contrary to the claim's "no
rollback is attempted", the handler does attempt to restore an observed
default route (the attempt re-runs the failing delete and therefore cannot
change state; see `put_default_clear_attempts_rollback` for the extra
primitive calls it makes). -/
theorem put_default_clear_spec (env : Env) (s : St) (d : Req)
    (hd : reqIface d = none) :
    (env.deleteOk = true →
      update_default env s d =
        ({ s with osRoute := none, db := none, pdb := none,
                  calls := s.calls ++ [.routeDelete], saved := s.saved + 1 },
         .ok ())) ∧
    (env.deleteOk = false →
      (put_default env s d).2 = .applyFailed .routeDeleteFailed ∧
      (put_default env s d).1.db = s.db ∧
      (put_default env s d).1.pdb = s.pdb ∧
      (put_default env s d).1.osRoute = s.osRoute ∧
      (put_default env s d).1.saved = s.saved) := by
  have hclear := update_default_clear_eq env s d hd
  constructor
  · intro hdel
    rw [hclear]
    simp [hdel]
  · intro hdel
    have hfail : update_default env s d =
        ({ s with calls := s.calls ++ [.routeDelete] },
         .error .routeDeleteFailed) := by
      rw [hclear]
      simp [hdel]
    unfold put_default
    rw [hfail]
    cases hosr : s.osRoute with
    | none => exact ⟨rfl, rfl, rfl, rfl, rfl⟩
    | some r =>
      dsimp only
      have hdf := update_default_deleteFalse env
        { s with osRoute := some r, calls := s.calls ++ [.routeDelete] }
        ⟨some r.interface, r.gateway⟩ hdel
      exact ⟨rfl, by simpa using hdf.2.1, by simpa using hdf.2.2.1,
        by simpa using hdf.1, by simpa using hdf.2.2.2.1⟩

/-- Witness for C6's amended theorem: clearing the default with a working
delete removes the OS route, drops the `"default"` key and persists. -/
theorem put_default_clear_spec_witness :
    update_default ⟨["eth0"], true, fun _ _ => true⟩
        ⟨some "eth0", some "eth0", none, [],
         some ⟨"eth0", some "10.0.0.1"⟩, [], 0⟩ ⟨none, none⟩ =
      (⟨none, none, none, [], none, [PrimCall.routeDelete], 1⟩, .ok ()) := by
  have h := put_default_clear_spec ⟨["eth0"], true, fun _ _ => true⟩
    ⟨some "eth0", some "eth0", none, [],
     some ⟨"eth0", some "10.0.0.1"⟩, [], 0⟩ ⟨none, none⟩ rfl
  simpa using h.1 rfl

/-- C6 counterexample: when the clear-default delete fails and a default
route was observed, the handler DOES attempt a rollback — after the failing
`ip.route.delete` of the clear path, the call log shows a further
up-interface query and a second `ip.route.delete` issued by the handler's
restoration attempt (the claim asserts no rollback is attempted). -/
theorem put_default_clear_attempts_rollback :
    (put_default ⟨["eth0"], false, fun _ _ => true⟩
        ⟨some "eth0", some "eth0", none, [],
         some ⟨"eth0", some "10.0.0.1"⟩, [], 0⟩ ⟨none, none⟩).2 =
      .applyFailed .routeDeleteFailed ∧
    (put_default ⟨["eth0"], false, fun _ _ => true⟩
        ⟨some "eth0", some "eth0", none, [],
         some ⟨"eth0", some "10.0.0.1"⟩, [], 0⟩ ⟨none, none⟩).1.calls =
      [PrimCall.routeDelete, PrimCall.listIfaces, PrimCall.routeDelete] := by
  decide

end IPRoute
